import Mathlib

/-! Shallow embedding of the RVNP trainer-attendance application (app.py):
the relational data model, the entity-management, user-management and
attendance-reporting handlers, and the analytics dashboard, together with
proofs of the specification properties about them. -/

/-- A row of one of the reference tables trainers / classes / units:
rowid, the name column (trainer_name / class_name / unit_name) and
department_code. -/
structure EntityRow where
  id : Nat
  name : String
  dept : String
deriving DecidableEq, Repr

/-- A row of the users table. -/
structure UserRow where
  id : Nat
  username : String
  password : String
  role : String
  department_code : String
deriving DecidableEq, Repr

/-- A row of the class_rep_assignments table (in rowid order). -/
structure Assignment where
  username : String
  class_name : String
  department_code : String
deriving DecidableEq, Repr

/-- A row of the lesson_attendance table. -/
structure LessonRecord where
  lesson_date : String
  class_name : String
  unit_name : String
  trainer_name : String
  time_slot : String
  status : String
  reason : Option String
  remarks : String
  reported_by : String
  department_code : String
deriving DecidableEq, Repr

/-- The scope of the logged-in user: role and department_code. -/
structure Actor where
  role : String
  dept : String
deriving DecidableEq, Repr

/-- Insertion step of a stable insertion sort: the new element goes in
front of the first entry b with le a b. -/
def insertBy {α : Type} (le : α → α → Bool) (a : α) : List α → List α
  | [] => [a]
  | b :: l => if le a b then a :: b :: l else b :: insertBy le a l

/-- Insertion sort; models SQL ORDER BY.  In every use below the sorted
keys are pairwise distinct (UNIQUE constraints or SELECT DISTINCT), so
any correct sort yields the same list and tie behaviour is moot. -/
def sortBy {α : Type} (le : α → α → Bool) : List α → List α
  | [] => []
  | a :: l => insertBy le a (sortBy le l)

theorem mem_insertBy {α : Type} {le : α → α → Bool} {a x : α} :
    ∀ {l : List α}, x ∈ insertBy le a l → x = a ∨ x ∈ l := by
  intro l
  induction l with
  | nil =>
    intro h
    simp [insertBy] at h
    exact Or.inl h
  | cons b t ih =>
    intro h
    by_cases hb : le a b = true
    · simp [insertBy, hb] at h
      rcases h with h | h | h
      · exact Or.inl h
      · exact Or.inr (by simp [h])
      · exact Or.inr (List.mem_cons_of_mem b h)
    · simp [insertBy, hb] at h
      rcases h with h | h
      · exact Or.inr (by simp [h])
      · rcases ih h with h1 | h1
        · exact Or.inl h1
        · exact Or.inr (List.mem_cons_of_mem b h1)

theorem mem_sortBy {α : Type} {le : α → α → Bool} {x : α} :
    ∀ {l : List α}, x ∈ sortBy le l → x ∈ l := by
  intro l
  induction l with
  | nil => intro h; simp [sortBy] at h
  | cons a t ih =>
    intro h
    rcases mem_insertBy h with h1 | h1
    · simp [h1]
    · exact List.mem_cons_of_mem a (ih h1)

/-- Keep the first occurrence of each value: pandas Series.unique and the
duplicate-free view SELECT DISTINCT produces. -/
def uniqueKeepFirst {α : Type} [DecidableEq α] : List α → List α
  | [] => []
  | a :: l => a :: (uniqueKeepFirst l).filter (fun x => decide (x ≠ a))

theorem mem_uniqueKeepFirst {α : Type} [DecidableEq α] {x : α} :
    ∀ {l : List α}, x ∈ uniqueKeepFirst l → x ∈ l := by
  intro l
  induction l with
  | nil => intro h; simp [uniqueKeepFirst] at h
  | cons a t ih =>
    intro h
    rcases List.mem_cons.mp h with h1 | h1
    · simp [h1]
    · exact List.mem_cons_of_mem a (ih (List.mem_of_mem_filter h1))

/-- Whitespace test used by strip. -/
def isWS (c : Char) : Bool := decide (c = ' ' ∨ c = '\t' ∨ c = '\n' ∨ c = '\r')

/-- Name normalisation of the add handlers: name_input.strip().upper(). -/
def normName (s : String) : String :=
  ⟨(((s.data.dropWhile isWS).reverse.dropWhile isWS).reverse).map Char.toUpper⟩

/-- Numeric value of an ASCII digit. -/
def digitVal (c : Char) : Nat := c.toNat - 48

/-- Round to the nearest integer with ties to even, the semantics of the
Python builtin round on exact values. -/
def roundHalfEven (q : ℚ) : ℤ :=
  if q - ⌊q⌋ = 1 / 2 then (if ⌊q⌋ % 2 = 0 then ⌊q⌋ else ⌊q⌋ + 1) else round q

/-- Rounding to one decimal place, as round(x, 1) does in Python. -/
def round1 (q : ℚ) : ℚ := (roundHalfEven (10 * q) : ℚ) / 10

/-- Key columns of the UNIQUE constraint on lesson_attendance:
(lesson_date, class_name, unit_name, trainer_name, time_slot). -/
def slotKey (r : LessonRecord) : String × String × String × String × String :=
  (r.lesson_date, r.class_name, r.unit_name, r.trainer_name, r.time_slot)

/-- The rep_form submit handler: an empty trainer or unit is rejected;
otherwise execute runs a plain INSERT into lesson_attendance, which the
UNIQUE constraint on the slot-key columns turns into an IntegrityError
(rolled back and reported as a duplicate) when the slot is already
reported.  Returns the new table and the (success, message) pair of
execute. -/
def submitReport (store : List LessonRecord)
    (ldate cls unit trainer slot status : String) (reason : Option String)
    (remarks username dept : String) : List LessonRecord × Bool × String :=
  if trainer = "" ∨ unit = "" then
    (store, false, "Trainer and Unit required.")
  else if store.any (fun s => decide (slotKey s = (ldate, cls, unit, trainer, slot))) then
    (store, false, "Duplicate Entry: This record already exists.")
  else
    (store ++ [⟨ldate, cls, unit, trainer, slot, status, reason, remarks, username, dept⟩],
      true, "Success")

/-- The manage_entity add-form handler: the name is trimmed and
upper-cased, a blank name is an error, and the row is written with
INSERT OR IGNORE, so a (name, department) pair that already exists is
silently ignored while execute still reports success and the handler
still posts the added message.  displayName is the Trainer / Class /
Unit label used in the message (the quotes around the name are
omitted). -/
def addEntity (table : List EntityRow) (nextId : Nat)
    (displayName rawName dept : String) : List EntityRow × String × String :=
  if normName rawName = "" then
    (table, "error", "Name cannot be empty.")
  else if table.any (fun r => decide (r.name = normName rawName ∧ r.dept = dept)) then
    (table, "success", displayName ++ " " ++ normName rawName ++ " added.")
  else
    (table ++ [⟨nextId, normName rawName, dept⟩], "success",
      displayName ++ " " ++ normName rawName ++ " added.")

/-- The manage_entity list query: SUPER_ADMIN sees every row ordered by
department then name; any other role sees only rows of its own
department, ordered by name. -/
def listEntities (table : List EntityRow) (actor : Actor) : List EntityRow :=
  if actor.role = "SUPER_ADMIN" then
    sortBy (fun a b => decide (a.dept < b.dept ∨ (a.dept = b.dept ∧ a.name ≤ b.name))) table
  else
    sortBy (fun a b => decide (a.name ≤ b.name))
      (table.filter (fun r => decide (r.dept = actor.dept)))

/-- The manage_entity delete handler: for an HOD, when the rowid exists
and belongs to another department the handler posts a permission error
and reruns, so the DELETE below the check is never reached; otherwise
the DELETE runs and the success message is posted whether or not a row
matched the id. -/
def deleteEntity (table : List EntityRow) (actor : Actor) (delId : Nat) :
    List EntityRow × String × String :=
  if actor.role = "HOD" then
    match table.find? (fun r => decide (r.id = delId)) with
    | some r =>
      if r.dept ≠ actor.dept then
        (table, "error", "You cannot delete records from other departments.")
      else
        (table.filter (fun x => decide (x.id ≠ delId)), "success", "Record deleted.")
    | none => (table.filter (fun x => decide (x.id ≠ delId)), "success", "Record deleted.")
  else
    (table.filter (fun x => decide (x.id ≠ delId)), "success", "Record deleted.")

/-- The user-management delete handler: it looks up the id of the
logged-in username (none models the iloc crash when that row is
absent), refuses only a self-delete, and otherwise deletes whatever id
was entered, with no check on the role or department of the target. -/
def deleteUser (users : List UserRow) (actorName : String) (delId : Nat) :
    Option (List UserRow × String × String) :=
  match users.find? (fun u => decide (u.username = actorName)) with
  | none => none
  | some cur =>
    if delId = cur.id then
      some (users, "error", "Cannot delete your own account.")
    else
      some (users.filter (fun u => decide (u.id ≠ delId)), "success", "User deleted.")

/-- The user list an HOD is shown: own-department CLASS_REP rows only. -/
def hodUserList (users : List UserRow) (actor : Actor) : List UserRow :=
  users.filter (fun u => decide (u.department_code = actor.dept ∧ u.role = "CLASS_REP"))

/-- The four dashboard metric cards: total lessons, taught, missed =
total minus taught, and rate = round(taught / total * 100, 1) with the
zero-total guard of the source. -/
structure DashMetrics where
  total : Nat
  taught : Nat
  missed : Nat
  rate : ℚ
deriving DecidableEq, Repr

/-- Computation of the dashboard metric cards from the filtered
lesson_attendance rows. -/
def dashboardMetrics (df : List LessonRecord) : DashMetrics :=
  let total := df.length
  let taught := (df.filter (fun r => decide (r.status = "Taught"))).length
  ⟨total, taught, total - taught,
    if total > 0 then round1 ((taught : ℚ) / (total : ℚ) * 100) else 0⟩

/-- One row of the Trainer Statistics table built by
groupby(trainer_name).apply: note that Missed is counted as the rows
whose status is Not Taught, not computed as total minus taught. -/
structure TrainerStat where
  trainer_name : String
  total : Nat
  taught : Nat
  missed : Nat
  rate : ℚ
deriving DecidableEq, Repr

/-- Statistics of one trainer group. -/
def trainerStat (df : List LessonRecord) (t : String) : TrainerStat :=
  let g := df.filter (fun r => decide (r.trainer_name = t))
  let taught := (g.filter (fun r => decide (r.status = "Taught"))).length
  let notTaught := (g.filter (fun r => decide (r.status = "Not Taught"))).length
  ⟨t, g.length, taught, notTaught, round1 ((taught : ℚ) / (g.length : ℚ) * 100)⟩

/-- Group keys of df.groupby(trainer_name): the distinct trainer names
in ascending order. -/
def groupKeys (df : List LessonRecord) : List String :=
  sortBy (fun a b => decide (a ≤ b)) (uniqueKeepFirst (df.map (fun r => r.trainer_name)))

/-- sort_values with ascending set to False: pandas nargsort reverses
the column, argsorts it ascending, and reverses the resulting indexer.
The argsort uses the numpy default quicksort, which fixes no order
among equal keys (it is stable only on its small-array insertion-sort
path), so among tied rates the order produced by this model is just
one admissible outcome of the program; only the rate ordering and the
membership (the result being a permutation of the input) are
meaningful, and only membership is used in the proofs below. -/
def pandasSortDesc {α : Type} (key : α → ℚ) (l : List α) : List α :=
  (sortBy (fun a b => decide (key a ≤ key b)) l.reverse).reverse

/-- The Trainer Statistics table: per-trainer rows in group-key order,
then sort_values on the rate column, descending. -/
def rank (df : List LessonRecord) : List TrainerStat :=
  pandasSortDesc (fun s => s.rate) ((groupKeys df).map (trainerStat df))

/-- Modelled from the spec: the named-period (term) filter of the
analytics engine is absent from app.py, whose dashboard applies no date
filter at all; the spec fixes the month ranges Term1 = Jan to Mar,
Term2 = May to Jul, Term3 = Sep to Nov. -/
def termMonths : String → List Nat
  | "Term1" => [1, 2, 3]
  | "Term2" => [5, 6, 7]
  | "Term3" => [9, 10, 11]
  | _ => []

/-- Month number of an ISO date string YYYY-MM-DD, the str(date) format
the reports store: the two digits after the first dash. -/
def monthOf (d : String) : Nat :=
  match d.data.drop 5 with
  | c1 :: c2 :: _ => 10 * digitVal c1 + digitVal c2
  | _ => 0

/-- Modelled from the spec: when a term filter is chosen the engine
keeps exactly the records whose month lies in the fixed month range of
that term; months outside the range are excluded entirely. -/
def queryAttendanceTerm (period : String) (df : List LessonRecord) : List LessonRecord :=
  df.filter (fun r => decide (monthOf r.lesson_date ∈ termMonths period))

/-- Modelled from the spec: totals and aggregates of a term query are
the dashboard metrics of the term-filtered record set. -/
def termAggregate (period : String) (df : List LessonRecord) : DashMetrics :=
  dashboardMetrics (queryAttendanceTerm period df)

/-- The class-rep interface: with no assignment row the rep is turned
away; otherwise the effective department is the department_code of the
first assignment row, the class choices are the distinct assigned class
names, and the unit and trainer choices are the distinct names of that
first department, ascending. -/
def repContext (asg : List Assignment) (unitsTable trainersTable : List EntityRow) :
    Option (String × List String × List String × List String) :=
  match asg with
  | [] => none
  | a :: _ =>
    let dept := a.department_code
    let classes := uniqueKeepFirst (asg.map (fun x => x.class_name))
    let units := sortBy (fun x y => decide (x ≤ y))
      (uniqueKeepFirst ((unitsTable.filter (fun r => decide (r.dept = dept))).map (fun r => r.name)))
    let trainers := sortBy (fun x y => decide (x ≤ y))
      (uniqueKeepFirst ((trainersTable.filter (fun r => decide (r.dept = dept))).map (fun r => r.name)))
    some (dept, classes, units, trainers)

/-- Submitting the rep_form: the stored department_code is the
effective department of repContext, whichever assigned class was
selected. -/
def repSubmit (asg : List Assignment) (unitsTable trainersTable : List EntityRow)
    (store : List LessonRecord) (ldate cls unit trainer slot status : String)
    (reason : Option String) (remarks username : String) :
    Option (List LessonRecord × Bool × String) :=
  match repContext asg unitsTable trainersTable with
  | none => none
  | some (dept, _, _, _) =>
    some (submitReport store ldate cls unit trainer slot status reason remarks username dept)

theorem find?_key_eq {α β : Type} [DecidableEq β] (key : α → β) (a : α) :
    ∀ l : List α, a ∈ l → (l.map key).Nodup →
      l.find? (fun x => decide (key x = key a)) = some a := by
  intro l
  induction l with
  | nil => intro h _; simp at h
  | cons b t ih =>
    intro hm hn
    rw [List.map_cons, List.nodup_cons] at hn
    rcases List.mem_cons.mp hm with h1 | h1
    · subst h1
      simp [List.find?]
    · have hne : key b ≠ key a := by
        intro he
        exact hn.1 (he ▸ List.mem_map_of_mem key h1)
      rw [List.find?_cons_of_neg _ (by simp [hne])]
      exact ih h1 hn.2

/-- C1: for a valid lesson-slot tuple over a store with no report for
that slot, the first submission stores the record and succeeds, the
store then holds exactly one record for the slot, and a second
submission for the same slot (whatever its status, reason, remarks,
reporter or department) is rejected as a duplicate and leaves the
store unchanged. -/
theorem submitReport_twice
    (store : List LessonRecord)
    (ldate cls unit trainer slot status : String) (reason : Option String)
    (remarks username dept : String)
    (status2 : String) (reason2 : Option String) (remarks2 username2 dept2 : String)
    (htrainer : trainer ≠ "") (hunit : unit ≠ "")
    (hfresh : ∀ s ∈ store, slotKey s ≠ (ldate, cls, unit, trainer, slot)) :
    submitReport store ldate cls unit trainer slot status reason remarks username dept =
      (store ++ [⟨ldate, cls, unit, trainer, slot, status, reason, remarks, username, dept⟩],
        true, "Success") ∧
    ((store ++ [(⟨ldate, cls, unit, trainer, slot, status, reason, remarks, username,
          dept⟩ : LessonRecord)]).filter
        (fun s => decide (slotKey s = (ldate, cls, unit, trainer, slot)))).length = 1 ∧
    submitReport
        (store ++ [⟨ldate, cls, unit, trainer, slot, status, reason, remarks, username, dept⟩])
        ldate cls unit trainer slot status2 reason2 remarks2 username2 dept2 =
      (store ++ [⟨ldate, cls, unit, trainer, slot, status, reason, remarks, username, dept⟩],
        false, "Duplicate Entry: This record already exists.") := by
  have hany1 : store.any
      (fun s => decide (slotKey s = (ldate, cls, unit, trainer, slot))) = false := by
    rw [List.any_eq_false]
    intro s hs
    simpa using hfresh s hs
  have h0 : store.filter
      (fun s => decide (slotKey s = (ldate, cls, unit, trainer, slot))) = [] := by
    rw [List.filter_eq_nil_iff]
    intro s hs
    simpa using hfresh s hs
  refine ⟨?_, ?_, ?_⟩
  · simp [submitReport, htrainer, hunit, hany1]
  · rw [List.filter_append, h0]
    simp [slotKey]
  · simp [submitReport, htrainer, hunit, List.any_append, slotKey]

/-- Witness for C1 at the scenario of the spec: rep r1 reports
(2024-03-01, ICT1A, DATABASES, J.DOE, 7.30-9.00, Taught) twice into an
empty store. -/
theorem submitReport_twice_witness :
    submitReport [] "2024-03-01" "ICT1A" "DATABASES" "J.DOE" "7.30-9.00" "Taught" none ""
        "r1" "ICT" =
      ([⟨"2024-03-01", "ICT1A", "DATABASES", "J.DOE", "7.30-9.00", "Taught", none, "",
        "r1", "ICT"⟩], true, "Success") ∧
    ((([] : List LessonRecord) ++ [(⟨"2024-03-01", "ICT1A", "DATABASES", "J.DOE", "7.30-9.00",
        "Taught", none, "", "r1", "ICT"⟩ : LessonRecord)]).filter
        (fun s => decide (slotKey s = ("2024-03-01", "ICT1A", "DATABASES", "J.DOE",
          "7.30-9.00")))).length = 1 ∧
    submitReport [⟨"2024-03-01", "ICT1A", "DATABASES", "J.DOE", "7.30-9.00", "Taught", none, "",
        "r1", "ICT"⟩] "2024-03-01" "ICT1A" "DATABASES" "J.DOE" "7.30-9.00" "Taught" none ""
        "r1" "ICT" =
      ([⟨"2024-03-01", "ICT1A", "DATABASES", "J.DOE", "7.30-9.00", "Taught", none, "",
        "r1", "ICT"⟩], false, "Duplicate Entry: This record already exists.") :=
  submitReport_twice [] "2024-03-01" "ICT1A" "DATABASES" "J.DOE" "7.30-9.00" "Taught" none ""
    "r1" "ICT" "Taught" none "" "r1" "ICT" (by decide) (by decide) (by decide)

/-- C3: an HOD attempting to delete an entity row that belongs to
another department gets the permission error and the table is left
unchanged. -/
theorem deleteEntity_wrong_department
    (table : List EntityRow) (actor : Actor) (r : EntityRow) (delId : Nat)
    (hrole : actor.role = "HOD")
    (hids : (table.map (fun x => x.id)).Nodup)
    (hmem : r ∈ table) (hid : r.id = delId) (hdept : r.dept ≠ actor.dept) :
    deleteEntity table actor delId =
      (table, "error", "You cannot delete records from other departments.") := by
  subst hid
  have hfind : table.find? (fun x => decide (x.id = r.id)) = some r :=
    find?_key_eq (fun x => x.id) r table hmem hids
  simp [deleteEntity, hrole, hfind, hdept]

/-- Witness for C3 at the scenario of the spec: an ELEC HOD tries to
delete a trainer row of ICT. -/
theorem deleteEntity_wrong_department_witness :
    deleteEntity [⟨1, "J.DOE", "ICT"⟩] ⟨"HOD", "ELEC"⟩ 1 =
      ([⟨1, "J.DOE", "ICT"⟩], "error", "You cannot delete records from other departments.") :=
  deleteEntity_wrong_department [⟨1, "J.DOE", "ICT"⟩] ⟨"HOD", "ELEC"⟩ ⟨1, "J.DOE", "ICT"⟩ 1
    rfl (by decide) (by decide) rfl (by decide)

/-- C4 fails on the code: deleting an id that is absent from the table
is reported as a success, not as a not-found error. -/
theorem deleteEntity_absent_id_counterexample :
    deleteEntity [⟨1, "J.DOE", "ICT"⟩] ⟨"HOD", "ICT"⟩ 5 =
      ([⟨1, "J.DOE", "ICT"⟩], "success", "Record deleted.") := by decide

/-- C4 amended: for every actor and an id absent from the target table,
the delete handler leaves the table unchanged and still posts the
success message; no not-found error exists. -/
theorem deleteEntity_absent_id
    (table : List EntityRow) (actor : Actor) (delId : Nat)
    (habs : ∀ r ∈ table, r.id ≠ delId) :
    deleteEntity table actor delId = (table, "success", "Record deleted.") := by
  have hfind : table.find? (fun x => decide (x.id = delId)) = none := by
    rw [List.find?_eq_none]
    intro x hx
    simpa using habs x hx
  have hfilter : table.filter (fun x => decide (x.id ≠ delId)) = table := by
    rw [List.filter_eq_self]
    intro a ha
    simpa using habs a ha
  by_cases hrole : actor.role = "HOD"
  · simp [deleteEntity, hrole, hfind]
    exact habs
  · simp [deleteEntity, hrole]
    exact habs

/-- Witness for the amended C4. -/
theorem deleteEntity_absent_id_witness :
    deleteEntity [⟨1, "J.DOE", "ICT"⟩] ⟨"SUPER_ADMIN", "ALL"⟩ 5 =
      ([⟨1, "J.DOE", "ICT"⟩], "success", "Record deleted.") :=
  deleteEntity_absent_id [⟨1, "J.DOE", "ICT"⟩] ⟨"SUPER_ADMIN", "ALL"⟩ 5 (by decide)

/-- C5 fails on the code: re-adding an existing (name, department) pair
produces exactly the same success outcome as the fresh creation did, so
the caller cannot distinguish an already-exists case from a new
insert. -/
theorem addEntity_duplicate_counterexample :
    addEntity [⟨1, "X", "ICT"⟩] 2 "Trainer" "X" "ICT" =
      ([⟨1, "X", "ICT"⟩], "success", "Trainer X added.") ∧
    (addEntity [] 1 "Trainer" "X" "ICT").2 = ("success", "Trainer X added.") := by decide

/-- C5 amended: re-adding an existing (name, department) pair does not
crash and adds no second row, but its outcome is the same success
added message as a fresh creation, not a distinguishable already-exists
result. -/
theorem addEntity_duplicate_no_new_row
    (table : List EntityRow) (nextId : Nat) (displayName rawName dept : String)
    (hname : normName rawName ≠ "")
    (hdup : ∃ r ∈ table, r.name = normName rawName ∧ r.dept = dept) :
    addEntity table nextId displayName rawName dept =
      (table, "success", displayName ++ " " ++ normName rawName ++ " added.") := by
  have hany : table.any
      (fun r => decide (r.name = normName rawName ∧ r.dept = dept)) = true := by
    rw [List.any_eq_true]
    rcases hdup with ⟨r, hr, h1, h2⟩
    exact ⟨r, hr, decide_eq_true ⟨h1, h2⟩⟩
  simp only [addEntity]
  rw [if_neg hname, if_pos hany]

/-- Witness for the amended C5. -/
theorem addEntity_duplicate_no_new_row_witness :
    addEntity [⟨1, "X", "ICT"⟩] 2 "Trainer" "X" "ICT" =
      ([⟨1, "X", "ICT"⟩], "success", "Trainer" ++ " " ++ normName "X" ++ " added.") :=
  addEntity_duplicate_no_new_row [⟨1, "X", "ICT"⟩] 2 "Trainer" "X" "ICT" (by decide)
    ⟨⟨1, "X", "ICT"⟩, by decide, by decide, rfl⟩

/-- C8: every row the entity list query returns to an HOD belongs to
the department of that HOD. -/
theorem listEntities_hod_scoped
    (table : List EntityRow) (actor : Actor) (hrole : actor.role = "HOD") :
    ∀ r ∈ listEntities table actor, r.dept = actor.dept := by
  intro r hr
  have hne : ¬ actor.role = "SUPER_ADMIN" := by rw [hrole]; decide
  rw [listEntities, if_neg hne] at hr
  have h1 := List.mem_filter.mp (mem_sortBy hr)
  simpa using h1.2

/-- Witness for C8: the ICT HOD list of a two-department table contains
the ICT row, and its department is ICT. -/
theorem listEntities_hod_scoped_witness :
    EntityRow.dept ⟨1, "A", "ICT"⟩ = Actor.dept ⟨"HOD", "ICT"⟩ :=
  listEntities_hod_scoped [⟨1, "A", "ICT"⟩, ⟨2, "B", "ELEC"⟩] ⟨"HOD", "ICT"⟩ rfl
    ⟨1, "A", "ICT"⟩ (by decide)

/-- C2: a record dated outside the fixed month range of the chosen term
never appears in the term-filtered record set and contributes nothing
to the term aggregates; in particular an April record contributes
nothing to a Term1 query.  (Modelled from the spec: app.py itself has
no period filter.) -/
theorem termFilter_excludes_out_of_range
    (period : String) (df : List LessonRecord) (r : LessonRecord)
    (hout : monthOf r.lesson_date ∉ termMonths period) :
    r ∉ queryAttendanceTerm period df ∧
    queryAttendanceTerm period (df ++ [r]) = queryAttendanceTerm period df ∧
    termAggregate period (df ++ [r]) = termAggregate period df := by
  have hc : decide (monthOf r.lesson_date ∈ termMonths period) = false :=
    decide_eq_false hout
  have h2 : queryAttendanceTerm period (df ++ [r]) = queryAttendanceTerm period df := by
    simp only [queryAttendanceTerm]
    rw [List.filter_append]
    simp [List.filter_cons, hc]
  refine ⟨?_, h2, ?_⟩
  · intro hmem
    rw [queryAttendanceTerm] at hmem
    have h3 := List.of_mem_filter hmem
    rw [hc] at h3
    exact Bool.false_ne_true h3
  · rw [termAggregate, termAggregate, h2]

/-- Witness for C2 at the scenario of the spec: an April record added
to a store with one March record changes nothing about a Term1
query. -/
theorem termFilter_excludes_out_of_range_witness :
    (⟨"2024-04-10", "ICT1A", "DATABASES", "J.DOE", "7.30-9.00", "Taught", none, "", "r1",
        "ICT"⟩ : LessonRecord) ∉
      queryAttendanceTerm "Term1"
        [⟨"2024-03-01", "ICT1A", "DATABASES", "J.DOE", "7.30-9.00", "Taught", none, "", "r1",
          "ICT"⟩] ∧
    queryAttendanceTerm "Term1"
        ([⟨"2024-03-01", "ICT1A", "DATABASES", "J.DOE", "7.30-9.00", "Taught", none, "", "r1",
          "ICT"⟩] ++
          [⟨"2024-04-10", "ICT1A", "DATABASES", "J.DOE", "7.30-9.00", "Taught", none, "", "r1",
            "ICT"⟩]) =
      queryAttendanceTerm "Term1"
        [⟨"2024-03-01", "ICT1A", "DATABASES", "J.DOE", "7.30-9.00", "Taught", none, "", "r1",
          "ICT"⟩] ∧
    termAggregate "Term1"
        ([⟨"2024-03-01", "ICT1A", "DATABASES", "J.DOE", "7.30-9.00", "Taught", none, "", "r1",
          "ICT"⟩] ++
          [⟨"2024-04-10", "ICT1A", "DATABASES", "J.DOE", "7.30-9.00", "Taught", none, "", "r1",
            "ICT"⟩]) =
      termAggregate "Term1"
        [⟨"2024-03-01", "ICT1A", "DATABASES", "J.DOE", "7.30-9.00", "Taught", none, "", "r1",
          "ICT"⟩] :=
  termFilter_excludes_out_of_range "Term1"
    [⟨"2024-03-01", "ICT1A", "DATABASES", "J.DOE", "7.30-9.00", "Taught", none, "", "r1",
      "ICT"⟩]
    ⟨"2024-04-10", "ICT1A", "DATABASES", "J.DOE", "7.30-9.00", "Taught", none, "", "r1",
      "ICT"⟩ (by decide)

theorem count_not_taught {l : List LessonRecord}
    (h : ∀ r ∈ l, r.status = "Taught" ∨ r.status = "Not Taught") :
    (l.filter (fun r => decide (r.status = "Not Taught"))).length =
      l.length - (l.filter (fun r => decide (r.status = "Taught"))).length := by
  induction l with
  | nil => simp
  | cons a t ih =>
    have ht := ih (fun r hr => h r (List.mem_cons_of_mem a hr))
    have hle := List.length_filter_le (fun r => decide (r.status = "Taught")) t
    rcases h a (List.mem_cons_self a t) with h1 | h1
    · simp [List.filter_cons, h1]
      omega
    · simp [List.filter_cons, h1]
      omega

/-- C7: the dashboard cards report missed = total minus taught and
rate = round(taught / total * 100, 1) when total is positive and 0.0
when total is zero; every row of the per-trainer statistics table has
a nonempty group, its Missed column (counted as the Not Taught rows)
equals total minus taught, and its rate follows the same formula. -/
theorem metrics_missed_and_rate
    (df : List LessonRecord)
    (hstatus : ∀ r ∈ df, r.status = "Taught" ∨ r.status = "Not Taught") :
    ((dashboardMetrics df).missed =
      (dashboardMetrics df).total - (dashboardMetrics df).taught) ∧
    (0 < (dashboardMetrics df).total →
      (dashboardMetrics df).rate =
        round1 (((dashboardMetrics df).taught : ℚ) / ((dashboardMetrics df).total : ℚ) * 100)) ∧
    ((dashboardMetrics df).total = 0 → (dashboardMetrics df).rate = 0) ∧
    ∀ s ∈ rank df, 0 < s.total ∧ s.missed = s.total - s.taught ∧
      s.rate = round1 ((s.taught : ℚ) / (s.total : ℚ) * 100) := by
  refine ⟨rfl, ?_, ?_, ?_⟩
  · intro h
    simp only [dashboardMetrics] at h ⊢
    rw [if_pos h]
  · intro h
    simp only [dashboardMetrics] at h ⊢
    rw [h]
    simp
  · intro s hs
    rw [rank, pandasSortDesc, List.mem_reverse] at hs
    have hs2 := mem_sortBy hs
    rw [List.mem_reverse] at hs2
    rcases List.mem_map.mp hs2 with ⟨t, ht, rfl⟩
    rw [groupKeys] at ht
    have ht2 := mem_uniqueKeepFirst (mem_sortBy ht)
    rcases List.mem_map.mp ht2 with ⟨r, hr, hrt⟩
    have hg : r ∈ df.filter (fun x => decide (x.trainer_name = t)) :=
      List.mem_filter.mpr ⟨hr, decide_eq_true hrt⟩
    have hpos : 0 < (df.filter (fun x => decide (x.trainer_name = t))).length :=
      List.length_pos_of_mem hg
    have hsub : ∀ x ∈ df.filter (fun x => decide (x.trainer_name = t)),
        x.status = "Taught" ∨ x.status = "Not Taught" :=
      fun x hx => hstatus x (List.mem_of_mem_filter hx)
    exact ⟨hpos, count_not_taught hsub, rfl⟩

/-- Witness for C7 over a two-record store (one Taught, one Not
Taught). -/
theorem metrics_missed_and_rate_witness :
    (dashboardMetrics
        [⟨"2024-03-01", "ICT1A", "DATABASES", "J.DOE", "7.30-9.00", "Taught", none, "", "r1",
          "ICT"⟩,
         ⟨"2024-03-01", "ICT1A", "DATABASES", "J.DOE", "09.00-10.30", "Not Taught",
          some "Trainer Absent", "", "r1", "ICT"⟩]).missed =
      (dashboardMetrics
        [⟨"2024-03-01", "ICT1A", "DATABASES", "J.DOE", "7.30-9.00", "Taught", none, "", "r1",
          "ICT"⟩,
         ⟨"2024-03-01", "ICT1A", "DATABASES", "J.DOE", "09.00-10.30", "Not Taught",
          some "Trainer Absent", "", "r1", "ICT"⟩]).total -
      (dashboardMetrics
        [⟨"2024-03-01", "ICT1A", "DATABASES", "J.DOE", "7.30-9.00", "Taught", none, "", "r1",
          "ICT"⟩,
         ⟨"2024-03-01", "ICT1A", "DATABASES", "J.DOE", "09.00-10.30", "Not Taught",
          some "Trainer Absent", "", "r1", "ICT"⟩]).taught :=
  (metrics_missed_and_rate
    [⟨"2024-03-01", "ICT1A", "DATABASES", "J.DOE", "7.30-9.00", "Taught", none, "", "r1",
      "ICT"⟩,
     ⟨"2024-03-01", "ICT1A", "DATABASES", "J.DOE", "09.00-10.30", "Not Taught",
      some "Trainer Absent", "", "r1", "ICT"⟩] (by decide)).1

/-- C9: the user-delete handler run by an HOD removes any other user
row, whatever its role and department, and reports success: the only
check is against self-deletion; yet the user list shown to the HOD
contains only own-department CLASS_REP rows, so such a target is not
even listed. -/
theorem deleteUser_no_permission_check
    (users : List UserRow) (actor target : UserRow) (delId : Nat)
    (hnames : (users.map (fun u => u.username)).Nodup)
    (hactor : actor ∈ users) (hrole : actor.role = "HOD")
    (htarget : target ∈ users) (hid : target.id = delId)
    (hneq : delId ≠ actor.id) :
    deleteUser users actor.username delId =
      some (users.filter (fun u => decide (u.id ≠ delId)), "success", "User deleted.") ∧
    target ∉ users.filter (fun u => decide (u.id ≠ delId)) ∧
    ((target.role ≠ "CLASS_REP" ∨ target.department_code ≠ actor.department_code) →
      target ∉ hodUserList users ⟨actor.role, actor.department_code⟩) := by
  have hfind : users.find? (fun u => decide (u.username = actor.username)) = some actor :=
    find?_key_eq (fun u => u.username) actor users hactor hnames
  refine ⟨?_, ?_, ?_⟩
  · simp [deleteUser, hfind, hneq]
  · intro hmem
    have h2 := List.of_mem_filter hmem
    simp at h2
    exact h2 hid
  · intro hcase hmem
    rw [hodUserList] at hmem
    have h2 := List.of_mem_filter hmem
    simp only [decide_eq_true_eq] at h2
    rcases hcase with hc | hc
    · exact hc h2.2
    · exact hc h2.1

/-- Witness for C9: the ELEC HOD h1 deletes the SUPER_ADMIN account
(id 2), which is neither a CLASS_REP nor in the ELEC department. -/
theorem deleteUser_no_permission_check_witness :
    deleteUser [⟨1, "h1", "p", "HOD", "ELEC"⟩, ⟨2, "admin", "a", "SUPER_ADMIN", "ALL"⟩]
        (UserRow.username ⟨1, "h1", "p", "HOD", "ELEC"⟩) 2 =
      some ([⟨1, "h1", "p", "HOD", "ELEC"⟩, ⟨2, "admin", "a", "SUPER_ADMIN", "ALL"⟩].filter
          (fun u => decide (u.id ≠ 2)), "success", "User deleted.") ∧
    (⟨2, "admin", "a", "SUPER_ADMIN", "ALL"⟩ : UserRow) ∉
      [⟨1, "h1", "p", "HOD", "ELEC"⟩, ⟨2, "admin", "a", "SUPER_ADMIN", "ALL"⟩].filter
        (fun u => decide (u.id ≠ 2)) ∧
    ((UserRow.role ⟨2, "admin", "a", "SUPER_ADMIN", "ALL"⟩ ≠ "CLASS_REP" ∨
        UserRow.department_code ⟨2, "admin", "a", "SUPER_ADMIN", "ALL"⟩ ≠
          UserRow.department_code ⟨1, "h1", "p", "HOD", "ELEC"⟩) →
      (⟨2, "admin", "a", "SUPER_ADMIN", "ALL"⟩ : UserRow) ∉
        hodUserList [⟨1, "h1", "p", "HOD", "ELEC"⟩, ⟨2, "admin", "a", "SUPER_ADMIN", "ALL"⟩]
          ⟨UserRow.role ⟨1, "h1", "p", "HOD", "ELEC"⟩,
            UserRow.department_code ⟨1, "h1", "p", "HOD", "ELEC"⟩⟩) :=
  deleteUser_no_permission_check
    [⟨1, "h1", "p", "HOD", "ELEC"⟩, ⟨2, "admin", "a", "SUPER_ADMIN", "ALL"⟩]
    ⟨1, "h1", "p", "HOD", "ELEC"⟩ ⟨2, "admin", "a", "SUPER_ADMIN", "ALL"⟩ 2
    (by decide) (by decide) rfl (by decide) rfl (by decide)

/-- C10: with at least one assignment row, the class-rep interface
derives its department from the first assignment only: the unit and
trainer choices come from that department, and every record a
submission adds carries that department_code, whichever assigned class
was selected. -/
theorem repSubmit_first_assignment_department
    (a : Assignment) (rest : List Assignment) (unitsTable trainersTable : List EntityRow) :
    (∃ classes units trainers,
      repContext (a :: rest) unitsTable trainersTable =
        some (a.department_code, classes, units, trainers) ∧
      (∀ u ∈ units, ∃ row ∈ unitsTable, row.name = u ∧ row.dept = a.department_code) ∧
      (∀ tr ∈ trainers, ∃ row ∈ trainersTable, row.name = tr ∧ row.dept = a.department_code)) ∧
    (∀ store ldate cls unit trainer slot status reason remarks username res,
      repSubmit (a :: rest) unitsTable trainersTable store ldate cls unit trainer slot status
          reason remarks username = some res →
      ∀ rec ∈ res.1, rec ∈ store ∨ rec.department_code = a.department_code) := by
  constructor
  · refine ⟨_, _, _, rfl, ?_, ?_⟩
    · intro u hu
      rcases List.mem_map.mp (mem_uniqueKeepFirst (mem_sortBy hu)) with ⟨row, hrow, hname⟩
      have h2 := List.mem_filter.mp hrow
      exact ⟨row, h2.1, hname, of_decide_eq_true h2.2⟩
    · intro tr htr
      rcases List.mem_map.mp (mem_uniqueKeepFirst (mem_sortBy htr)) with ⟨row, hrow, hname⟩
      have h2 := List.mem_filter.mp hrow
      exact ⟨row, h2.1, hname, of_decide_eq_true h2.2⟩
  · intro store ldate cls unit trainer slot status reason remarks username res hres rec hrec
    simp only [repSubmit, repContext, Option.some_inj] at hres
    subst hres
    by_cases h1 : trainer = "" ∨ unit = ""
    · simp only [submitReport, if_pos h1] at hrec
      exact Or.inl hrec
    · by_cases h2 : (store.any
          fun s => decide (slotKey s = (ldate, cls, unit, trainer, slot))) = true
      · simp only [submitReport, if_neg h1, if_pos h2] at hrec
        exact Or.inl hrec
      · simp only [submitReport, if_neg h1, if_neg h2] at hrec
        rcases List.mem_append.mp hrec with h3 | h3
        · exact Or.inl h3
        · rw [List.mem_singleton] at h3
          subst h3
          exact Or.inr rfl

/-- Witness for C10: rep r1 is assigned to ICT1A (ICT) first and EL1
(ELEC) second; submitting for the ELEC class EL1 still stores
department_code ICT. -/
theorem repSubmit_first_assignment_department_witness :
    ((⟨"2024-03-01", "EL1", "DATABASES", "J.DOE", "7.30-9.00", "Taught", none, "", "r1",
        "ICT"⟩ : LessonRecord) ∈ ([] : List LessonRecord)) ∨
      LessonRecord.department_code ⟨"2024-03-01", "EL1", "DATABASES", "J.DOE", "7.30-9.00",
        "Taught", none, "", "r1", "ICT"⟩ =
        Assignment.department_code ⟨"r1", "ICT1A", "ICT"⟩ :=
  (repSubmit_first_assignment_department ⟨"r1", "ICT1A", "ICT"⟩ [⟨"r1", "EL1", "ELEC"⟩]
      [⟨1, "DATABASES", "ICT"⟩] [⟨1, "J.DOE", "ICT"⟩]).2
    [] "2024-03-01" "EL1" "DATABASES" "J.DOE" "7.30-9.00" "Taught" none "" "r1"
    ([⟨"2024-03-01", "EL1", "DATABASES", "J.DOE", "7.30-9.00", "Taught", none, "", "r1",
      "ICT"⟩], true, "Success") rfl
    ⟨"2024-03-01", "EL1", "DATABASES", "J.DOE", "7.30-9.00", "Taught", none, "", "r1", "ICT"⟩
    (by decide)

